import Mathlib

/-!
Shallow embedding of the rate-limited proxy endpoint of `worker.js`
(the Cloudflare Worker of the war-room-academy repository), together with
theorems settling the specification claims about it.

The embedding models:
  * JSON / JavaScript values (`JSValue`) with JavaScript truthiness,
    property access and the string coercions used by `Array.prototype.join`;
  * the fixed-window rate limiter `checkRateLimit` (worker.js lines 157-226),
    with the key-value store interactions made explicit: the result of the
    single `get` is an input (`KVGetResult`, which can also represent a
    thrown exception), and the single `put`, when performed, is recorded in
    the output (`KVWrite`); a `putThrows` flag models an exception thrown by
    the `put`, which lands in the surrounding `try/catch`;
  * the top-level request handler `fetch` (worker.js lines 18-146), with the
    outcome of the upstream Anthropic call supplied as an input and the
    upstream request body, when one is sent, recorded in the output.

Response bodies are modelled by the small datatype `RespBody`: `JSON.stringify`
of the two fixed object shapes the worker produces (an `error` field or a
`response` field) is kept symbolic rather than re-implementing JSON string
escaping, which no claim depends on.
-/

namespace WarRoom

/-- A JavaScript/JSON value, as produced by `request.json()` and consumed by
the worker. `undefined` (an absent property) is represented by `Option` at
use sites, not by a constructor. -/
inductive JSValue where
  | null
  | bool (b : Bool)
  | num (n : Int)
  | str (s : String)
  | arr (elems : List JSValue)
  | obj (fields : List (String × JSValue))

/-- Property access `v.k`: on an object, the value of the first binding of
`k` (JS objects have distinct keys); on any other non-null value, `undefined`
(`none`). Access on `null` throws in JS and is handled separately at the two
places it can occur: `fetch` guards the parsed request body, and routes a
`null` element of `data.content` (on which the filter callback's
`block.type` would throw) to the catch-all 500 path. -/
def getField : JSValue → String → Option JSValue
  | .obj fields, k => fields.lookup k
  | _, _ => none

/-- JavaScript truthiness of a value. -/
def truthy : JSValue → Bool
  | .null => false
  | .bool b => b
  | .num n => n != 0
  | .str s => s != ""
  | .arr _ => true
  | .obj _ => true

/-- Truthiness of a possibly-absent value: `undefined` is falsy. -/
def truthyOpt : Option JSValue → Bool
  | none => false
  | some v => truthy v

/-- The JavaScript `||` operator on possibly-absent values: the first operand
if it is truthy, otherwise the second. -/
def jsOr (a b : Option JSValue) : Option JSValue :=
  if truthyOpt a then a else b

/-- The idiom `x || d` on a nullable string `x` with a string default `d`:
`null` (absent) and the empty string both fall through to the default. -/
def strOr (o : Option String) (d : String) : String :=
  match o with
  | none => d
  | some s => if s = "" then d else s

mutual

/-- The JavaScript `String(v)` coercion, for the values `JSValue` models
(arrays stringify as their comma-join, objects as "[object Object]"). -/
def jsStringOf : JSValue → String
  | .null => "null"
  | .bool true => "true"
  | .bool false => "false"
  | .num n => toString n
  | .str s => s
  | .arr xs => jsArrString xs
  | .obj _ => "[object Object]"

/-- `Array.prototype.join` with separator ",", where `null` elements become
the empty string, as in `Array.prototype.toString`. -/
def jsArrString : List JSValue → String
  | [] => ""
  | [.null] => ""
  | [v] => jsStringOf v
  | .null :: rest => "," ++ jsArrString rest
  | v :: rest => jsStringOf v ++ "," ++ jsArrString rest

end

/-- The element coercion of `Array.prototype.join`: `undefined` and `null`
become the empty string, anything else its `String(-)` coercion. -/
def jsJoinElem : Option JSValue → String
  | none => ""
  | some .null => ""
  | some v => jsStringOf v

/-! Worker configuration constants (worker.js lines 7-15). -/

def ANTHROPIC_VERSION : String := "2023-06-01"

def MODEL : String := "claude-3-haiku-20240307"

def MAX_TOKENS : Int := 500

def TEMPERATURE : ℚ := 7 / 10

def RATE_LIMIT_REQUESTS : Int := 50

def RATE_LIMIT_WINDOW : Int := 3600

/-- The JSON record stored in the `RATE_LIMIT` KV namespace for one client. -/
structure RateLimitRecord where
  count : Int
  resetAt : Int
  deriving DecidableEq, Repr

/-- Result of the single `env.RATE_LIMIT.get(key, {type: 'json'})` call:
it can throw, find no record (JS `null`), or return a record. -/
inductive KVGetResult where
  | throws
  | missing
  | found (data : RateLimitRecord)
  deriving DecidableEq, Repr

/-- A `put` performed on the KV store: key, stored record and the
`expirationTtl` option. -/
structure KVWrite where
  key : String
  value : RateLimitRecord
  expirationTtl : Int
  deriving DecidableEq, Repr

/-- What one call of `checkRateLimit` returns and does: the returned
`{allowed, remaining}` object, the `put` it performed (if any), and
whether it attempted the `get` at all. -/
structure RateLimitOutcome where
  allowed : Bool
  remaining : Int
  write : Option KVWrite
  readAttempted : Bool
  deriving DecidableEq, Repr

/-- The KV key for a client: `ratelimit:` followed by the client IP
(worker.js line 166). -/
def rateLimitKey (clientIP : String) : String := "ratelimit:" ++ clientIP

/-- `checkRateLimit(env, clientIP)` (worker.js lines 157-226). `kvBound` is
the truthiness of `env.RATE_LIMIT`; `getRes` is the outcome of the single
`get`; `putThrows` says whether a `put`, if attempted, throws (the `catch`
then returns the fail-open result); `now` is `Math.floor(Date.now()/1000)`. -/
def checkRateLimit (kvBound : Bool) (getRes : KVGetResult) (putThrows : Bool)
    (clientIP : String) (now : Int) : RateLimitOutcome :=
  if !kvBound then
    ⟨true, RATE_LIMIT_REQUESTS, none, false⟩
  else
    match getRes with
    | .throws => ⟨true, RATE_LIMIT_REQUESTS, none, true⟩
    | .missing =>
        if putThrows then ⟨true, RATE_LIMIT_REQUESTS, none, true⟩
        else
          ⟨true, RATE_LIMIT_REQUESTS - 1,
            some ⟨rateLimitKey clientIP, ⟨1, now + RATE_LIMIT_WINDOW⟩,
              RATE_LIMIT_WINDOW⟩, true⟩
    | .found data =>
        if now > data.resetAt then
          if putThrows then ⟨true, RATE_LIMIT_REQUESTS, none, true⟩
          else
            ⟨true, RATE_LIMIT_REQUESTS - 1,
              some ⟨rateLimitKey clientIP, ⟨1, now + RATE_LIMIT_WINDOW⟩,
                RATE_LIMIT_WINDOW⟩, true⟩
        else if data.count ≥ RATE_LIMIT_REQUESTS then
          ⟨false, 0, none, true⟩
        else
          if putThrows then ⟨true, RATE_LIMIT_REQUESTS, none, true⟩
          else
            ⟨true, RATE_LIMIT_REQUESTS - (data.count + 1),
              some ⟨rateLimitKey clientIP, ⟨data.count + 1, data.resetAt⟩,
                data.resetAt - now⟩, true⟩

/-- The parts of the incoming HTTP request the worker reads: the method, the
`CF-Connecting-IP` header (absent → `none`), and the result of
`request.json()` (which throws on a malformed body). -/
structure WorkerRequest where
  method : String
  cfConnectingIP : Option String
  jsonBody : Except Unit JSValue

/-- The worker environment: truthiness of the `RATE_LIMIT` KV binding, and
the `ANTHROPIC_API_KEY` variable (absent → `none`; the worker tests it with
JS truthiness, so an empty string also counts as unconfigured). -/
structure Env where
  rateLimitBound : Bool
  anthropicApiKey : Option String

/-- The parts of the upstream Anthropic response the worker reads:
`response.ok` and the result of `response.json()` (which can throw). -/
structure UpstreamResponse where
  ok : Bool
  jsonBody : Except Unit JSValue

/-- A response body produced by the worker. `jsonError m` stands for
`JSON.stringify({error: m})` and `jsonResponse s` for
`JSON.stringify({response: s})`; `text s` is a plain-text body. -/
inductive RespBody where
  | empty
  | text (s : String)
  | jsonError (message : String)
  | jsonResponse (s : String)
  deriving DecidableEq, Repr

/-- An HTTP response produced by the worker: status, body, headers. -/
structure WorkerResponse where
  status : Int
  body : RespBody
  headers : List (String × String)
  deriving DecidableEq, Repr

/-- `corsHeaders()` (worker.js lines 232-240). -/
def corsHeaders : List (String × String) :=
  [("Content-Type", "application/json"),
   ("Access-Control-Allow-Origin", "*"),
   ("Access-Control-Allow-Methods", "POST, OPTIONS"),
   ("Access-Control-Allow-Headers", "Content-Type"),
   ("Access-Control-Max-Age", "86400")]

/-- `handleCORS()` (worker.js lines 242-247): status 204, `null` body, the
CORS header set. -/
def handleCORS : WorkerResponse := ⟨204, .empty, corsHeaders⟩

/-- The JSON body the worker sends to the Anthropic API (worker.js lines
81-92): fixed model, max-tokens and temperature, the system instruction
(`body.system || 'You are a helpful AI assistant.'`) and the single
user-role message content (the validated prompt text). -/
structure AnthropicRequest where
  model : String
  max_tokens : Int
  temperature : ℚ
  system : JSValue
  userContent : String

/-- What one call of the worker `fetch` handler returns and does: the HTTP
response, whether the KV store was read, the KV write performed (if any),
whether the upstream API was called, and the request body sent upstream
(if one was sent). -/
structure FetchOutcome where
  response : WorkerResponse
  kvRead : Bool
  kvWrite : Option KVWrite
  upstreamCalled : Bool
  upstreamRequest : Option AnthropicRequest

/-- Whether a value is the JS `null`, on which property access throws. -/
def isNull : JSValue → Bool
  | .null => true
  | _ => false

/-- `body.prompt || body.message` (worker.js line 49). -/
def promptTextOf (body : JSValue) : Option JSValue :=
  jsOr (getField body "prompt") (getField body "message")

/-- The validation `if (!promptText || typeof promptText !== 'string')`
(worker.js line 50), phrased as a partial projection: the checks pass
exactly when the value is a non-empty string, which is then returned. -/
def validPrompt : Option JSValue → Option String
  | some (.str s) => if s = "" then none else some s
  | _ => none

/-- The system instruction sent upstream:
`body.system || 'You are a helpful AI assistant.'` (worker.js line 85). -/
def systemOf (body : JSValue) : JSValue :=
  match jsOr (getField body "system")
      (some (.str "You are a helpful AI assistant.")) with
  | some v => v
  | none => .str "You are a helpful AI assistant."

/-- Whether a content block satisfies `block.type === 'text'`
(worker.js line 114). Only ever applied to non-null blocks: on a `null`
block the worker's `block.type` throws, and `fetch` models that by sending
any content list with a `null` element to the 500 path before this filter
is reached. -/
def isTextBlock (b : JSValue) : Bool :=
  match getField b "type" with
  | some (.str s) => s = "text"
  | _ => false

/-- The top-level `fetch(request, env)` handler (worker.js lines 18-146).
Beyond the request and environment, the inputs fix the parts of the outside
world the handler interacts with: `now` is the clock read inside
`checkRateLimit`, `getRes`/`putThrows` the behaviour of the KV store, and
`upstream` the outcome of the Anthropic call (`Except.error` being a
transport-level exception). The `try/catch` around the body turns every
thrown exception into the 500 "An unexpected error occurred" response;
`request.json()` throwing, property access on a `null` body, the upstream
call throwing, `response.json()` throwing, `.filter` on a non-array
`data.content`, and the filter callback reading `block.type` off a `null`
content block all take that path. -/
def fetch (req : WorkerRequest) (env : Env) (now : Int) (getRes : KVGetResult)
    (putThrows : Bool) (upstream : Except Unit UpstreamResponse) :
    FetchOutcome :=
  if req.method = "OPTIONS" then
    ⟨handleCORS, false, none, false, none⟩
  else if req.method ≠ "POST" then
    ⟨⟨405, .text "Method not allowed", []⟩, false, none, false, none⟩
  else
    let clientIP := strOr req.cfConnectingIP "unknown"
    let rl := checkRateLimit env.rateLimitBound getRes putThrows clientIP now
    if !rl.allowed then
      ⟨⟨429, .jsonError "Rate limit exceeded. Please try again later.",
        corsHeaders⟩, rl.readAttempted, rl.write, false, none⟩
    else
      match req.jsonBody with
      | .error _ =>
          ⟨⟨500, .jsonError "An unexpected error occurred", corsHeaders⟩,
            rl.readAttempted, rl.write, false, none⟩
      | .ok body =>
          if isNull body then
            ⟨⟨500, .jsonError "An unexpected error occurred", corsHeaders⟩,
              rl.readAttempted, rl.write, false, none⟩
          else
            match validPrompt (promptTextOf body) with
            | none =>
                ⟨⟨400, .jsonError "Invalid request: prompt is required",
                  corsHeaders⟩, rl.readAttempted, rl.write, false, none⟩
            | some promptText =>
                if strOr env.anthropicApiKey "" = "" then
                  ⟨⟨500, .jsonError "Service configuration error",
                    corsHeaders⟩, rl.readAttempted, rl.write, false, none⟩
                else
                  let upReq : AnthropicRequest :=
                    ⟨MODEL, MAX_TOKENS, TEMPERATURE, systemOf body,
                      promptText⟩
                  match upstream with
                  | .error _ =>
                      ⟨⟨500, .jsonError "An unexpected error occurred",
                        corsHeaders⟩, rl.readAttempted, rl.write, true,
                        some upReq⟩
                  | .ok resp =>
                      if !resp.ok then
                        ⟨⟨503, .jsonError "AI service temporarily unavailable",
                          corsHeaders⟩, rl.readAttempted, rl.write, true,
                          some upReq⟩
                      else
                        match resp.jsonBody with
                        | .error _ =>
                            ⟨⟨500, .jsonError "An unexpected error occurred",
                              corsHeaders⟩, rl.readAttempted, rl.write, true,
                              some upReq⟩
                        | .ok data =>
                            match getField data "content" with
                            | some (.arr blocks) =>
                                if blocks.any isNull then
                                  ⟨⟨500,
                                    .jsonError "An unexpected error occurred",
                                    corsHeaders⟩, rl.readAttempted, rl.write,
                                    true, some upReq⟩
                                else
                                  let responseText := String.intercalate "\n"
                                    (((blocks.filter isTextBlock).map
                                      (fun b => jsJoinElem (getField b "text"))))
                                  ⟨⟨200, .jsonResponse responseText,
                                    corsHeaders⟩,
                                    rl.readAttempted, rl.write, true,
                                    some upReq⟩
                            | _ =>
                                ⟨⟨500,
                                  .jsonError "An unexpected error occurred",
                                  corsHeaders⟩, rl.readAttempted, rl.write,
                                  true, some upReq⟩

/-! Helper lemmas shared by several claims. -/

/-- Every `put` performed by `checkRateLimit` uses the key
`ratelimit:` + client IP. -/
theorem checkRateLimit_write_key (kvBound : Bool) (getRes : KVGetResult)
    (putThrows : Bool) (ip : String) (now : Int) :
    ∀ w, (checkRateLimit kvBound getRes putThrows ip now).write = some w →
      w.key = rateLimitKey ip := by
  intro w hw
  cases kvBound with
  | false => simp [checkRateLimit] at hw
  | true =>
    cases getRes with
    | throws => simp [checkRateLimit] at hw
    | missing =>
      by_cases hp : putThrows
      · simp [checkRateLimit, hp] at hw
      · simp [checkRateLimit, hp] at hw
        simp [← hw]
    | found r =>
      by_cases h1 : now > r.resetAt
      · by_cases hp : putThrows
        · simp [checkRateLimit, h1, hp] at hw
        · simp [checkRateLimit, h1, hp] at hw
          simp [← hw]
      · by_cases h2 : r.count ≥ RATE_LIMIT_REQUESTS
        · simp [checkRateLimit, h1, h2] at hw
        · by_cases hp : putThrows
          · simp [checkRateLimit, h1, h2, hp] at hw
          · simp [checkRateLimit, h1, h2, hp] at hw
            simp [← hw]

/-- Whatever branch `fetch` takes, its KV write is either absent or exactly
the write performed by `checkRateLimit` at the derived client IP. -/
theorem fetch_kvWrite_cases (req : WorkerRequest) (env : Env) (now : Int)
    (getRes : KVGetResult) (putThrows : Bool)
    (upstream : Except Unit UpstreamResponse) :
    (fetch req env now getRes putThrows upstream).kvWrite = none ∨
      (fetch req env now getRes putThrows upstream).kvWrite =
        (checkRateLimit env.rateLimitBound getRes putThrows
          (strOr req.cfConnectingIP "unknown") now).write := by
  unfold fetch
  split
  · exact Or.inl rfl
  split
  · exact Or.inl rfl
  right
  dsimp only
  repeat' split <;> try rfl

/-! ### Claim C1 -/

/-- C1: with a configured store (and no store exception), `checkRateLimit`
follows the fixed-window algorithm. If no record exists, or `now >
record.resetAt`, it writes `{count: 1, resetAt: now + WINDOW}` with expiry
`WINDOW` and allows; else if `record.count >= LIMIT` it rejects without a
write; else it writes `{count: record.count + 1, resetAt: record.resetAt}`
with expiry `record.resetAt - now` and allows. -/
theorem checkRateLimit_follows_fixed_window (ip : String) (now : Int) :
    (checkRateLimit true .missing false ip now =
      ⟨true, RATE_LIMIT_REQUESTS - 1,
        some ⟨rateLimitKey ip, ⟨1, now + RATE_LIMIT_WINDOW⟩,
          RATE_LIMIT_WINDOW⟩, true⟩)
    ∧ (∀ r : RateLimitRecord, now > r.resetAt →
        checkRateLimit true (.found r) false ip now =
          ⟨true, RATE_LIMIT_REQUESTS - 1,
            some ⟨rateLimitKey ip, ⟨1, now + RATE_LIMIT_WINDOW⟩,
              RATE_LIMIT_WINDOW⟩, true⟩)
    ∧ (∀ r : RateLimitRecord, ¬ now > r.resetAt →
        r.count ≥ RATE_LIMIT_REQUESTS →
        checkRateLimit true (.found r) false ip now = ⟨false, 0, none, true⟩)
    ∧ (∀ r : RateLimitRecord, ¬ now > r.resetAt →
        ¬ r.count ≥ RATE_LIMIT_REQUESTS →
        checkRateLimit true (.found r) false ip now =
          ⟨true, RATE_LIMIT_REQUESTS - (r.count + 1),
            some ⟨rateLimitKey ip, ⟨r.count + 1, r.resetAt⟩,
              r.resetAt - now⟩, true⟩) := by
  refine ⟨by simp [checkRateLimit], ?_, ?_, ?_⟩
  · intro r h1
    simp [checkRateLimit, h1]
  · intro r h1 h2
    simp [checkRateLimit, h1, h2]
  · intro r h1 h2
    simp [checkRateLimit, h1, h2]

/-- Witness for C1: concrete runs through each branch of the algorithm with
the hypotheses discharged by computation (LIMIT = 50, WINDOW = 3600). -/
theorem checkRateLimit_follows_fixed_window_witness :
    (checkRateLimit true (.found ⟨7, 900⟩) false "203.0.113.5" 1000 =
      ⟨true, 49, some ⟨"ratelimit:203.0.113.5", ⟨1, 4600⟩, 3600⟩, true⟩)
    ∧ (checkRateLimit true (.found ⟨50, 2000⟩) false "203.0.113.5" 1000 =
        ⟨false, 0, none, true⟩)
    ∧ (checkRateLimit true (.found ⟨3, 2000⟩) false "203.0.113.5" 1000 =
        ⟨true, 46, some ⟨"ratelimit:203.0.113.5", ⟨4, 2000⟩, 1000⟩, true⟩) :=
  ⟨(checkRateLimit_follows_fixed_window "203.0.113.5" 1000).2.1 ⟨7, 900⟩
      (by decide),
   (checkRateLimit_follows_fixed_window "203.0.113.5" 1000).2.2.1 ⟨50, 2000⟩
      (by decide) (by decide),
   (checkRateLimit_follows_fixed_window "203.0.113.5" 1000).2.2.2 ⟨3, 2000⟩
      (by decide) (by decide)⟩

/-! ### Claim C3 -/

/-- C3: the stored count never exceeds LIMIT. Every write performed by the
limiter stores a count between 1 and LIMIT (given that the record it read,
if any, had a non-negative count, as all records written by the limiter do),
and a request arriving when `record.count >= LIMIT` within the current
window is rejected with no write. -/
theorem checkRateLimit_count_invariant (kvBound : Bool) (getRes : KVGetResult)
    (putThrows : Bool) (ip : String) (now : Int) :
    (∀ w, (checkRateLimit kvBound getRes putThrows ip now).write = some w →
      (∀ r, getRes = .found r → 0 ≤ r.count) →
      1 ≤ w.value.count ∧ w.value.count ≤ RATE_LIMIT_REQUESTS)
    ∧ (∀ r, getRes = .found r → now ≤ r.resetAt →
        RATE_LIMIT_REQUESTS ≤ r.count →
        checkRateLimit true getRes putThrows ip now =
          ⟨false, 0, none, true⟩) := by
  constructor
  · intro w hw hc
    cases kvBound with
    | false => simp [checkRateLimit] at hw
    | true =>
      cases getRes with
      | throws => simp [checkRateLimit] at hw
      | missing =>
        by_cases hp : putThrows
        · simp [checkRateLimit, hp] at hw
        · simp [checkRateLimit, hp] at hw
          simp [← hw, RATE_LIMIT_REQUESTS]
      | found r =>
        have h0 : (0 : Int) ≤ r.count := hc r rfl
        by_cases h1 : now > r.resetAt
        · by_cases hp : putThrows
          · simp [checkRateLimit, h1, hp] at hw
          · simp [checkRateLimit, h1, hp] at hw
            simp [← hw, RATE_LIMIT_REQUESTS]
        · by_cases h2 : r.count ≥ RATE_LIMIT_REQUESTS
          · simp [checkRateLimit, h1, h2] at hw
          · by_cases hp : putThrows
            · simp [checkRateLimit, h1, h2, hp] at hw
            · simp [checkRateLimit, h1, h2, hp] at hw
              rw [← hw]
              simp only [RATE_LIMIT_REQUESTS] at h2 ⊢
              constructor <;> omega
  · intro r hr h1 h2
    subst hr
    have h1' : ¬ now > r.resetAt := by omega
    simp [checkRateLimit, h1', h2]

/-- Witness for C3: a write out of a record with count 49 stores count 50
(within bounds), and a record at the ceiling 50 is rejected unchanged. -/
theorem checkRateLimit_count_invariant_witness :
    ((1 : Int) ≤ (⟨"ratelimit:a", ⟨50, 2000⟩, 1000⟩ : KVWrite).value.count ∧
      (⟨"ratelimit:a", ⟨50, 2000⟩, 1000⟩ : KVWrite).value.count ≤
        RATE_LIMIT_REQUESTS)
    ∧ checkRateLimit true (.found ⟨50, 2000⟩) false "a" 1000 =
        ⟨false, 0, none, true⟩ :=
  ⟨(checkRateLimit_count_invariant true (.found ⟨49, 2000⟩) false "a" 1000).1
      ⟨"ratelimit:a", ⟨50, 2000⟩, 1000⟩ (by decide)
      (fun r hr => by cases hr; decide),
   (checkRateLimit_count_invariant true (.found ⟨50, 2000⟩) false "a" 1000).2
      ⟨50, 2000⟩ rfl (by decide) (by decide)⟩

/-! ### Claim C4 -/

/-- C4: the limiter fails open. With no store binding it allows; if the
store lookup throws it allows; and in any situation where a write would be
attempted (the no-exception run performs a write), a throwing write still
results in the request being allowed. -/
theorem checkRateLimit_fail_open (getRes : KVGetResult) (putThrows : Bool)
    (ip : String) (now : Int) :
    (checkRateLimit false getRes putThrows ip now).allowed = true
    ∧ (checkRateLimit true .throws putThrows ip now).allowed = true
    ∧ ((checkRateLimit true getRes false ip now).write ≠ none →
        (checkRateLimit true getRes true ip now).allowed = true) := by
  refine ⟨by simp [checkRateLimit], by simp [checkRateLimit], ?_⟩
  intro hw
  cases getRes with
  | throws => simp [checkRateLimit]
  | missing => simp [checkRateLimit]
  | found r =>
    by_cases h1 : now > r.resetAt
    · simp [checkRateLimit, h1]
    · by_cases h2 : r.count ≥ RATE_LIMIT_REQUESTS
      · exact absurd (by simp [checkRateLimit, h1, h2]) hw
      · simp [checkRateLimit, h1, h2]

/-- Witness for C4: with a record below the ceiling the no-exception run
writes, so a throwing write still allows the request. -/
theorem checkRateLimit_fail_open_witness :
    (checkRateLimit true (.found ⟨3, 2000⟩) true "a" 1000).allowed = true :=
  (checkRateLimit_fail_open (.found ⟨3, 2000⟩) true "a" 1000).2.2 (by decide)

/-! ### Claim C6 -/

/-- C6: every pre-flight (OPTIONS) request returns 204 with no body and the
fixed header set, and performs no quota-store read or write. -/
theorem fetch_preflight (req : WorkerRequest) (env : Env) (now : Int)
    (getRes : KVGetResult) (putThrows : Bool)
    (upstream : Except Unit UpstreamResponse)
    (h : req.method = "OPTIONS") :
    fetch req env now getRes putThrows upstream =
      ⟨⟨204, .empty,
        [("Content-Type", "application/json"),
         ("Access-Control-Allow-Origin", "*"),
         ("Access-Control-Allow-Methods", "POST, OPTIONS"),
         ("Access-Control-Allow-Headers", "Content-Type"),
         ("Access-Control-Max-Age", "86400")]⟩,
        false, none, false, none⟩ := by
  simp [fetch, h, handleCORS, corsHeaders]

/-- Witness for C6 at a concrete OPTIONS request (with the store bound and
every store interaction poised to throw, none of which is reached). -/
theorem fetch_preflight_witness :
    fetch ⟨"OPTIONS", none, .error ()⟩ ⟨true, none⟩ 0 .throws true
        (.error ()) =
      ⟨⟨204, .empty,
        [("Content-Type", "application/json"),
         ("Access-Control-Allow-Origin", "*"),
         ("Access-Control-Allow-Methods", "POST, OPTIONS"),
         ("Access-Control-Allow-Headers", "Content-Type"),
         ("Access-Control-Max-Age", "86400")]⟩,
        false, none, false, none⟩ :=
  fetch_preflight _ _ _ _ _ _ rfl

/-! ### Claim C7 -/

/-- Counterexample for C7: a GET request does get status 405, but the
response carries the plain-text body `Method not allowed`, not an empty
body as the claim states. -/
theorem fetch_get_405_body_not_empty :
    (fetch ⟨"GET", none, .ok (.obj [])⟩ ⟨false, none⟩ 0 .missing false
      (.ok ⟨true, .ok .null⟩)).response.status = 405
    ∧ (fetch ⟨"GET", none, .ok (.obj [])⟩ ⟨false, none⟩ 0 .missing false
        (.ok ⟨true, .ok .null⟩)).response.body = .text "Method not allowed"
    ∧ (fetch ⟨"GET", none, .ok (.obj [])⟩ ⟨false, none⟩ 0 .missing false
        (.ok ⟨true, .ok .null⟩)).response.body ≠ RespBody.empty := by
  refine ⟨rfl, rfl, ?_⟩
  intro hc
  simp [fetch] at hc

/-- C7 (amended): a request whose method is neither OPTIONS nor POST gets a
405 response whose body is the plain-text string `Method not allowed`
(and no headers), with no store interaction and no upstream call. -/
theorem fetch_other_method_405 (req : WorkerRequest) (env : Env) (now : Int)
    (getRes : KVGetResult) (putThrows : Bool)
    (upstream : Except Unit UpstreamResponse)
    (h1 : req.method ≠ "OPTIONS") (h2 : req.method ≠ "POST") :
    fetch req env now getRes putThrows upstream =
      ⟨⟨405, .text "Method not allowed", []⟩, false, none, false, none⟩ := by
  simp [fetch, h1, h2]

/-- Witness for C7 (amended) at a concrete DELETE request. -/
theorem fetch_other_method_405_witness :
    fetch ⟨"DELETE", none, .ok (.obj [])⟩ ⟨false, none⟩ 0 .missing false
        (.ok ⟨true, .ok .null⟩) =
      ⟨⟨405, .text "Method not allowed", []⟩, false, none, false, none⟩ :=
  fetch_other_method_405 _ _ _ _ _ _ (by decide) (by decide)

/-! ### Claim C2 -/

/-- Counterexample for C2: a POST whose JSON body is `{}` (no prompt field)
does get a 400, but the rate-limit check has already run and incremented
the stored count from 3 to 4 — the quota store is mutated by the invalid
request, contrary to the claim. -/
theorem fetch_empty_body_400_yet_quota_written :
    (fetch ⟨"POST", some "9.9.9.9", .ok (.obj [])⟩ ⟨true, some "k"⟩ 1000
      (.found ⟨3, 1500⟩) false (.ok ⟨true, .ok .null⟩)).response.status = 400
    ∧ (fetch ⟨"POST", some "9.9.9.9", .ok (.obj [])⟩ ⟨true, some "k"⟩ 1000
        (.found ⟨3, 1500⟩) false (.ok ⟨true, .ok .null⟩)).kvWrite =
        some ⟨"ratelimit:9.9.9.9", ⟨4, 1500⟩, 500⟩ :=
  ⟨rfl, rfl⟩

/-- C2 (amended): a submission whose body lacks a non-empty string prompt
(under the either-or `prompt`/`message` rule) is answered 400 before any
upstream call — provided the rate-limit check allowed it — but the
rate-limit check runs first, so the request still performs whatever quota
write that check decided on. -/
theorem fetch_invalid_prompt_400_no_upstream
    (req : WorkerRequest) (env : Env) (now : Int) (getRes : KVGetResult)
    (putThrows : Bool) (upstream : Except Unit UpstreamResponse)
    (body : JSValue)
    (hm : req.method = "POST")
    (hb : req.jsonBody = .ok body)
    (hn : isNull body = false)
    (hv : validPrompt (promptTextOf body) = none)
    (ha : (checkRateLimit env.rateLimitBound getRes putThrows
      (strOr req.cfConnectingIP "unknown") now).allowed = true) :
    (fetch req env now getRes putThrows upstream).response =
      ⟨400, .jsonError "Invalid request: prompt is required", corsHeaders⟩
    ∧ (fetch req env now getRes putThrows upstream).upstreamCalled = false
    ∧ (fetch req env now getRes putThrows upstream).kvWrite =
        (checkRateLimit env.rateLimitBound getRes putThrows
          (strOr req.cfConnectingIP "unknown") now).write := by
  simp [fetch, hm, hb, hn, hv, ha]

/-- Witness for C2 (amended) at a concrete empty-object body. -/
theorem fetch_invalid_prompt_400_no_upstream_witness :
    (fetch ⟨"POST", some "8.8.8.8", .ok (.obj [])⟩ ⟨true, some "k"⟩ 100
      .missing false (.ok ⟨true, .ok .null⟩)).response =
      ⟨400, .jsonError "Invalid request: prompt is required", corsHeaders⟩
    ∧ (fetch ⟨"POST", some "8.8.8.8", .ok (.obj [])⟩ ⟨true, some "k"⟩ 100
        .missing false (.ok ⟨true, .ok .null⟩)).upstreamCalled = false
    ∧ (fetch ⟨"POST", some "8.8.8.8", .ok (.obj [])⟩ ⟨true, some "k"⟩ 100
        .missing false (.ok ⟨true, .ok .null⟩)).kvWrite =
        (checkRateLimit true .missing false
          (strOr (some "8.8.8.8") "unknown") 100).write :=
  fetch_invalid_prompt_400_no_upstream _ _ _ _ _ _ (.obj [])
    rfl rfl rfl rfl rfl

/-! ### Claim C5 -/

/-- C5: whenever the upstream response is non-success (`ok` false),
whatever its body, the caller receives exactly the JSON error
`AI service temporarily unavailable` with status 503. -/
theorem fetch_upstream_error_503
    (req : WorkerRequest) (env : Env) (now : Int) (getRes : KVGetResult)
    (putThrows : Bool) (body : JSValue) (p : String)
    (resp : UpstreamResponse)
    (hm : req.method = "POST")
    (ha : (checkRateLimit env.rateLimitBound getRes putThrows
      (strOr req.cfConnectingIP "unknown") now).allowed = true)
    (hb : req.jsonBody = .ok body)
    (hn : isNull body = false)
    (hv : validPrompt (promptTextOf body) = some p)
    (hk : strOr env.anthropicApiKey "" ≠ "")
    (ho : resp.ok = false) :
    (fetch req env now getRes putThrows (.ok resp)).response =
      ⟨503, .jsonError "AI service temporarily unavailable", corsHeaders⟩ := by
  simp [fetch, hm, ha, hb, hn, hv, hk, ho]

/-- Witness for C5 at a concrete request whose upstream answers non-2xx
with a body that would itself throw on parsing (it is never read). -/
theorem fetch_upstream_error_503_witness :
    (fetch ⟨"POST", none, .ok (.obj [("prompt", .str "hi")])⟩
      ⟨false, some "key"⟩ 0 .missing false
      (.ok ⟨false, .error ()⟩)).response =
      ⟨503, .jsonError "AI service temporarily unavailable", corsHeaders⟩ :=
  fetch_upstream_error_503 _ _ _ _ _ (.obj [("prompt", .str "hi")]) "hi" _
    rfl rfl rfl rfl rfl (by decide) rfl

/-! ### Claim C8 -/

/-- The texts of the `text`-typed content blocks, in order: a direct
recursive rendering of the claim's wording ("extracts exactly the content
blocks whose type is text, concatenates their text fields in order"), to be
compared against the `filter`/`map`/`join` pipeline inside `fetch`. -/
def textBlocksTexts : List JSValue → List String
  | [] => []
  | b :: rest =>
      if isTextBlock b then
        jsJoinElem (getField b "text") :: textBlocksTexts rest
      else textBlocksTexts rest

/-- The recursive extraction agrees with the `filter`/`map` pipeline. -/
theorem textBlocksTexts_eq_filter_map (blocks : List JSValue) :
    textBlocksTexts blocks =
      (blocks.filter isTextBlock).map
        (fun b => jsJoinElem (getField b "text")) := by
  induction blocks with
  | nil => rfl
  | cons b rest ih =>
    by_cases h : isTextBlock b <;> simp [textBlocksTexts, h, ih]

/-- Counterexample for C8: a successful upstream response whose `content`
list contains a `null` entry is not answered 200 with the extracted text —
the filter callback's `block.type` throws on the `null` block and the
handler returns the generic 500 error instead. -/
theorem fetch_null_content_block_500 :
    (fetch ⟨"POST", none, .ok (.obj [("prompt", .str "hi")])⟩
      ⟨false, some "key"⟩ 0 .missing false
      (.ok ⟨true, .ok (.obj [("content", .arr
        [.null,
         .obj [("type", .str "text"), ("text", .str "a")]])])⟩)).response =
      ⟨500, .jsonError "An unexpected error occurred", corsHeaders⟩
    ∧ (fetch ⟨"POST", none, .ok (.obj [("prompt", .str "hi")])⟩
        ⟨false, some "key"⟩ 0 .missing false
        (.ok ⟨true, .ok (.obj [("content", .arr
          [.null,
           .obj [("type", .str "text"), ("text", .str "a")]])])⟩)).response.status
        ≠ 200 := by
  exact ⟨rfl, by decide⟩

/-- C8 (amended): on a successful upstream response whose `content` field
is a list of blocks none of which is `null`, the handler returns status 200
with a single `response` field holding the `text` fields of exactly the
`text`-typed blocks, concatenated in order with newline separators (a
`null` entry instead throws in the filter callback and is answered with the
generic 500 error). -/
theorem fetch_success_concatenates_text_blocks
    (req : WorkerRequest) (env : Env) (now : Int) (getRes : KVGetResult)
    (putThrows : Bool) (body : JSValue) (p : String)
    (resp : UpstreamResponse) (data : JSValue) (blocks : List JSValue)
    (hm : req.method = "POST")
    (ha : (checkRateLimit env.rateLimitBound getRes putThrows
      (strOr req.cfConnectingIP "unknown") now).allowed = true)
    (hb : req.jsonBody = .ok body)
    (hn : isNull body = false)
    (hv : validPrompt (promptTextOf body) = some p)
    (hk : strOr env.anthropicApiKey "" ≠ "")
    (ho : resp.ok = true)
    (hj : resp.jsonBody = .ok data)
    (hc : getField data "content" = some (.arr blocks))
    (hnn : blocks.any isNull = false) :
    (fetch req env now getRes putThrows (.ok resp)).response =
      ⟨200, .jsonResponse (String.intercalate "\n" (textBlocksTexts blocks)),
        corsHeaders⟩ := by
  simp [fetch, hm, ha, hb, hn, hv, hk, ho, hj, hc, hnn,
    textBlocksTexts_eq_filter_map]

/-- Witness for C8: two text blocks around a tool-use block produce the
two texts joined by one newline. -/
theorem fetch_success_concatenates_text_blocks_witness :
    (fetch ⟨"POST", none, .ok (.obj [("prompt", .str "hi")])⟩
      ⟨false, some "key"⟩ 0 .missing false
      (.ok ⟨true, .ok (.obj [("content", .arr
        [.obj [("type", .str "text"), ("text", .str "a")],
         .obj [("type", .str "tool_use")],
         .obj [("type", .str "text"), ("text", .str "b")]])])⟩)).response =
      ⟨200, .jsonResponse "a\nb", corsHeaders⟩ := by
  rw [fetch_success_concatenates_text_blocks
    ⟨"POST", none, .ok (.obj [("prompt", .str "hi")])⟩
    ⟨false, some "key"⟩ 0 .missing false
    (.obj [("prompt", .str "hi")]) "hi"
    ⟨true, .ok (.obj [("content", .arr
      [.obj [("type", .str "text"), ("text", .str "a")],
       .obj [("type", .str "tool_use")],
       .obj [("type", .str "text"), ("text", .str "b")]])])⟩
    (.obj [("content", .arr
      [.obj [("type", .str "text"), ("text", .str "a")],
       .obj [("type", .str "tool_use")],
       .obj [("type", .str "text"), ("text", .str "b")]])])
    [.obj [("type", .str "text"), ("text", .str "a")],
     .obj [("type", .str "tool_use")],
     .obj [("type", .str "text"), ("text", .str "b")]]
    rfl rfl rfl rfl rfl (by decide) rfl rfl rfl rfl]
  rfl

/-! ### Claim C9 -/

/-- C9: a request without the `CF-Connecting-IP` header gets the literal
client identifier `unknown`, and any quota write such a request performs
goes to the single shared key `ratelimit:unknown`. -/
theorem fetch_missing_ip_uses_unknown_key (req : WorkerRequest) (env : Env)
    (now : Int) (getRes : KVGetResult) (putThrows : Bool)
    (upstream : Except Unit UpstreamResponse)
    (h : req.cfConnectingIP = none) :
    strOr req.cfConnectingIP "unknown" = "unknown"
    ∧ ∀ w, (fetch req env now getRes putThrows upstream).kvWrite = some w →
        w.key = "ratelimit:unknown" := by
  refine ⟨by simp [strOr, h], ?_⟩
  intro w hw
  rcases fetch_kvWrite_cases req env now getRes putThrows upstream with
    hc | hc
  · rw [hc] at hw
    exact absurd hw (by simp)
  · rw [hc] at hw
    have hk := checkRateLimit_write_key env.rateLimitBound getRes putThrows
      (strOr req.cfConnectingIP "unknown") now w hw
    rw [hk, h]
    rfl

/-- Witness for C9: a concrete header-less POST whose first-request write
lands at key `ratelimit:unknown`. -/
theorem fetch_missing_ip_uses_unknown_key_witness :
    strOr (none : Option String) "unknown" = "unknown"
    ∧ (⟨"ratelimit:unknown", ⟨1, 3700⟩, 3600⟩ : KVWrite).key =
        "ratelimit:unknown" :=
  ⟨(fetch_missing_ip_uses_unknown_key ⟨"POST", none, .ok (.obj [])⟩
      ⟨true, some "k"⟩ 100 .missing false (.ok ⟨true, .ok .null⟩) rfl).1,
   (fetch_missing_ip_uses_unknown_key ⟨"POST", none, .ok (.obj [])⟩
      ⟨true, some "k"⟩ 100 .missing false (.ok ⟨true, .ok .null⟩) rfl).2
     ⟨"ratelimit:unknown", ⟨1, 3700⟩, 3600⟩ rfl⟩

/-! ### Claim C10 -/

/-- C10: the prompt/message either-or rule is JS truthiness on the `prompt`
field, not presence: whenever `prompt` is falsy the `message` field is used;
in particular a body with an empty-string `prompt` and `message` `hi` is
accepted, answered 200, and forwards `hi` upstream (with the default
assistant persona as system instruction). -/
theorem falsy_prompt_falls_back_to_message :
    (∀ body : JSValue, truthyOpt (getField body "prompt") = false →
      promptTextOf body = getField body "message")
    ∧ (fetch ⟨"POST", some "1.1.1.1",
        .ok (.obj [("prompt", .str ""), ("message", .str "hi")])⟩
        ⟨false, some "key"⟩ 0 .missing false
        (.ok ⟨true, .ok (.obj [("content", .arr [])])⟩)).upstreamRequest =
        some ⟨MODEL, MAX_TOKENS, TEMPERATURE,
          .str "You are a helpful AI assistant.", "hi"⟩
    ∧ (fetch ⟨"POST", some "1.1.1.1",
        .ok (.obj [("prompt", .str ""), ("message", .str "hi")])⟩
        ⟨false, some "key"⟩ 0 .missing false
        (.ok ⟨true, .ok (.obj [("content", .arr [])])⟩)).response.status =
        200 := by
  refine ⟨?_, rfl, rfl⟩
  intro body h
  simp [promptTextOf, jsOr, h]

/-- Witness for C10: a body whose `prompt` is the falsy `false` falls back
to its `message` field. -/
theorem falsy_prompt_falls_back_to_message_witness :
    promptTextOf (.obj [("prompt", .bool false), ("message", .str "m")]) =
      some (.str "m") :=
  (falsy_prompt_falls_back_to_message.1
    (.obj [("prompt", .bool false), ("message", .str "m")]) rfl).trans rfl

end WarRoom
